import Mathlib

/-!
# Verification of the "planning" application against its specification

Shallow embedding of the parts of the repository that the checked claims
touch, followed by theorems settling each claim.

Sources embedded here:
- `src/types.ts` (entity records),
- `src/components/Dashboard.tsx` (`loadData` theme selection,
  `handleDeleteTheme`, `handleCopilotAddTasks`),
- `src/components/Copilot.tsx` (`handleSendMessage` tag parsing,
  `handleApplySingleTask`, `handleRejectTask`),
- `src/components/CalendarButton.tsx` (`getEventDates` and the calendar
  export formatters) — file present as `src/unnamed/part_000`,
- `src/services/gemini.ts` (`callGeminiProxy`) — `src/unnamed/part_015`,
- `src/services/chatHistory.ts` (`saveChatSession`) — `src/unnamed/part_018`.

JavaScript platform primitives are modelled explicitly:
- `crypto.randomUUID()` as an externally supplied stream of fresh
  identifier strings,
- `JSON.parse` as an abstract partial parser (`Str → Option J`),
- `Date` values as integer epoch milliseconds together with the local
  timezone offset,
- JS string falsiness (`x || d`): the empty string and the number `0`
  count as absent.
-/

set_option autoImplicit false

namespace Planning

/-! ## Data model (src/types.ts) -/

/-- Category enum of `src/types.ts`. Values are the nonempty strings
`Career`/`Health`/`Finance`/`Lifestyle`/`Travel`/`Personal`, so JS
truthiness of a present category is always `true`. -/
inductive Category where
  | Career | Health | Finance | Lifestyle | Travel | Personal
deriving DecidableEq, Repr

/-- `ThemeStyle` of `src/types.ts`: five Tailwind class strings. -/
structure ThemeStyle where
  gradientFrom : String
  gradientTo : String
  accentColor : String
  bgOverlay : String
  cardBorder : String
deriving DecidableEq, Repr

/-- `Theme` of `src/types.ts`. -/
structure Theme where
  id : String
  title : String
  description : String
  startDate : String
  endDate : String
  style : ThemeStyle
  completed : Option Bool := none
deriving DecidableEq, Repr

/-- `Story` of `src/types.ts` (`themeId` is optional: stories may be global). -/
structure Story where
  id : String
  themeId : Option String := none
  title : String
  description : Option String := none
  isImportant : Option Bool := none
  createdAt : String
deriving DecidableEq, Repr

/-- `Subtask` of `src/types.ts`. -/
structure Subtask where
  id : String
  title : String
  completed : Bool
deriving DecidableEq, Repr

/-- `Task` of `src/types.ts` (fields the modelled handlers touch). -/
structure TaskRec where
  id : String
  themeId : String
  storyId : Option String := none
  title : String
  description : Option String := none
  category : Category
  dueDate : String
  estimatedMinutes : Nat
  completed : Bool
  isAiGenerated : Option Bool := none
  subtasks : Option (List Subtask) := none
deriving DecidableEq, Repr

/-- `Partial<Subtask>` as produced by `JSON.parse` of an LLM suggestion. -/
structure PartialSubtask where
  id : Option String := none
  title : Option String := none
  completed : Option Bool := none
deriving DecidableEq, Repr

/-- `Partial<Task>` as produced by `JSON.parse` of an LLM suggestion. -/
structure PartialTask where
  id : Option String := none
  storyId : Option String := none
  title : Option String := none
  description : Option String := none
  category : Option Category := none
  estimatedMinutes : Option Nat := none
  dueDate : Option String := none
  subtasks : Option (List PartialSubtask) := none
deriving DecidableEq, Repr

/-- `Partial<Theme>` suggestion payload. -/
structure PartialTheme where
  title : Option String := none
  description : Option String := none
  startDate : Option String := none
  endDate : Option String := none
deriving DecidableEq, Repr

/-- `Partial<Story>` suggestion payload. -/
structure PartialStory where
  title : Option String := none
  description : Option String := none
deriving DecidableEq, Repr

/-! ## JS defaulting helpers

`x || d` in JS falls back to `d` when `x` is `undefined`, the empty
string or the number `0`. -/

/-- `x || d` for an optional string. -/
def jsOrStr (x : Option String) (d : String) : String :=
  match x with
  | some s => if s = "" then d else s
  | none => d

/-- `x || d` for an optional number (`0` is falsy in JS). -/
def jsOrNat (x : Option Nat) (d : Nat) : Nat :=
  match x with
  | some n => if n = 0 then d else n
  | none => d

/-- JS truthiness of an optional string (`undefined` and `""` are falsy). -/
def jsTruthy (x : Option String) : Bool :=
  match x with
  | some s => s ≠ ""
  | none => false

/-! ## Dashboard local state (src/components/Dashboard.tsx) -/

/-- The slice of `Dashboard` component state the modelled handlers read
and write: `themes`, `tasks`, `stories`, `currentThemeId`. -/
structure DashState where
  themes : List Theme
  tasks : List TaskRec
  stories : List Story
  currentThemeId : String
deriving DecidableEq, Repr

/-- `handleDeleteTheme` (Dashboard.tsx lines 405-421): rejects the
deletion when at most one theme exists (`themes.length <= 1`), otherwise
filters the theme out of `themes`, drops every task whose `themeId`
references it, drops every story whose `themeId` references it, and moves
`currentThemeId` to the first remaining theme when the current one was
deleted.  (The remote `apiDeleteTheme` call does not touch local state.) -/
def handleDeleteTheme (st : DashState) (themeId : String) : DashState :=
  if st.themes.length ≤ 1 then st
  else
    let themes' := st.themes.filter (fun t => t.id ≠ themeId)
    let tasks' := st.tasks.filter (fun t => t.themeId ≠ themeId)
    let stories' := st.stories.filter (fun s => s.themeId ≠ some themeId)
    let cur' :=
      if st.currentThemeId = themeId then
        match themes'.head? with
        | some t => t.id
        | none => st.currentThemeId
      else st.currentThemeId
  { themes := themes', tasks := tasks', stories := stories', currentThemeId := cur' }

/-! ## Theme selection on load (Dashboard.tsx `loadData`, lines 229-236)

`const activeTheme = loadedThemes.find(t => today >= t.startDate && today <= t.endDate)
   || loadedThemes[loadedThemes.length - 1];`

Dates are `YYYY-MM-DD` strings compared lexicographically by JS `>=` /
`<=` (code-unit order), modelled by `jsStrLe`. -/

/-- Lexicographic comparison of character lists by code point — the JS
relational order on strings. -/
def charListLe : List Char → List Char → Bool
  | [], _ => true
  | _ :: _, [] => false
  | a :: as, b :: bs =>
    if a.toNat < b.toNat then true
    else if b.toNat < a.toNat then false
    else charListLe as bs

/-- JS `a <= b` on strings. -/
def jsStrLe (a b : String) : Bool := charListLe a.data b.data

/-- JS `a < b` on strings. -/
def jsStrLt (a b : String) : Bool := jsStrLe a b && !(a == b)

/-- `today >= t.startDate && today <= t.endDate`. -/
def themeContainsToday (today : String) (t : Theme) : Bool :=
  jsStrLe t.startDate today && jsStrLe today t.endDate

/-- The theme `loadData` selects as "current": the first loaded theme
whose `[startDate, endDate]` range contains today, else the last element
of the loaded list (`undefined` when the list is empty). -/
def selectActiveTheme (today : String) (loadedThemes : List Theme) : Option Theme :=
  (loadedThemes.find? (themeContainsToday today)).orElse
    (fun _ => loadedThemes.getLast?)

/-- A `themes` database row: the fetched `Theme` record together with the
`created_at` column (the column exists in the schema but `getThemes` does
not map it and the query has no `ORDER BY`). -/
structure ThemeRow where
  theme : Theme
  createdAt : String
deriving DecidableEq, Repr

/-- What the code computes on a fetched row list: `getThemes` projects
the rows to `Theme` records (in fetched order) and `loadData` then picks
first-containing-today else last. -/
def codeSelectedTheme (today : String) (rows : List ThemeRow) : Option Theme :=
  selectActiveTheme today (rows.map ThemeRow.theme)

/-- The most-recently-created row: maximal `createdAt` (left-biased). -/
def mostRecentlyCreated (rows : List ThemeRow) : Option ThemeRow :=
  rows.foldl
    (fun acc r =>
      match acc with
      | none => some r
      | some b => if jsStrLt b.createdAt r.createdAt then some r else some b)
    none

/-- The claim's selection rule, stated from the spec's words: the first
theme whose date range contains today, else the most-recently-created
theme. -/
def claimSelectedTheme (today : String) (rows : List ThemeRow) : Option Theme :=
  ((rows.map ThemeRow.theme).find? (themeContainsToday today)).orElse
    (fun _ => (mostRecentlyCreated rows).map ThemeRow.theme)

/-! ## Copilot suggestion merge (Dashboard.tsx `handleCopilotAddTasks`,
lines 655-726) -/

/-- ASCII lowering of one character (the `toLowerCase` behaviour on the
characters this comparison meets; full-Unicode lowering is out of
scope). -/
def jsLowerChar (c : Char) : Char :=
  if 65 ≤ c.toNat ∧ c.toNat ≤ 90 then Char.ofNat (c.toNat + 32) else c

/-- Lowercasing used by the story-title match
(`s.title.toLowerCase() === resolvedStoryId.toLowerCase()`). -/
def lowerStr (s : String) : String := String.mk (s.data.map jsLowerChar)

/-- The "Smart Story Resolution" of `handleCopilotAddTasks`: a truthy
`storyId` is kept when a story with that exact id exists; otherwise it is
replaced by the id of the first story whose lowercased title equals the
lowercased `storyId`; otherwise it becomes `undefined`.  A falsy
`storyId` (`undefined` or `""`) is left untouched. -/
def resolveStoryId (stories : List Story) (sid : Option String) : Option String :=
  match sid with
  | none => none
  | some s =>
    if s = "" then some s
    else if (stories.find? (fun st => st.id == s)).isSome then some s
    else
      match stories.find? (fun st => lowerStr st.title == lowerStr s) with
      | some st => some st.id
      | none => none

/-- Subtask sanitisation: keep a suggested subtask id only when it is
truthy and longer than 20 characters (`st.id && st.id.length > 20`),
else draw a fresh uuid; default the title to `"Step"`; coerce
`completed` with `!!`.  `fresh k` stands for the `crypto.randomUUID()`
call made for the `k`-th subtask. -/
def sanitizeSubtasks (fresh : Nat → String) (o : Option (List PartialSubtask)) :
    Option (List Subtask) :=
  o.map (fun l =>
    l.enum.map (fun p =>
      { id :=
          match p.2.id with
          | some i => if i ≠ "" ∧ i.length > 20 then i else fresh p.1
          | none => fresh p.1
        title := jsOrStr p.2.title "Step"
        completed := p.2.completed.getD false }))

/-- The existing-task lookup of `handleCopilotAddTasks`:
`t.id ? tasks.find(et => et.id === t.id) : null`. -/
def lookupExisting (tasks : List TaskRec) (oid : Option String) : Option TaskRec :=
  match oid with
  | some i => if i = "" then none else tasks.find? (fun et => et.id == i)
  | none => none

/-- Outcome of processing one suggestion: an update to an existing task
or a freshly created task. -/
inductive SuggestOutcome where
  | update (t : TaskRec)
  | create (t : TaskRec)
deriving DecidableEq, Repr

/-- Processing of a single suggested task inside
`handleCopilotAddTasks`'s `forEach`.  `freshSub` supplies the uuids drawn
for subtasks, `freshId` the uuid drawn for a newly created task, `today`
is `now.toISOString().slice(0, 10)`. -/
def processSuggestion (stories : List Story) (tasks : List TaskRec)
    (currentThemeId today : String) (freshSub : Nat → String) (freshId : String)
    (t : PartialTask) : SuggestOutcome :=
  let resolvedStoryId := resolveStoryId stories t.storyId
  let sanitized := sanitizeSubtasks freshSub t.subtasks
  match lookupExisting tasks t.id with
  | some existingTask =>
    .update
      { existingTask with
        title := jsOrStr t.title existingTask.title
        description :=
          match t.description with
          | some d => some d
          | none => existingTask.description
        category := t.category.getD existingTask.category
        estimatedMinutes := jsOrNat t.estimatedMinutes existingTask.estimatedMinutes
        dueDate := jsOrStr t.dueDate existingTask.dueDate
        storyId :=
          match resolvedStoryId with
          | some s => some s
          | none => existingTask.storyId
        subtasks :=
          match sanitized with
          | some l => some l
          | none => existingTask.subtasks }
  | none =>
    .create
      { id := freshId
        themeId := currentThemeId
        storyId := resolvedStoryId
        title := jsOrStr t.title "New Idea"
        description := some (jsOrStr t.description "")
        category := t.category.getD Category.Personal
        estimatedMinutes := jsOrNat t.estimatedMinutes 30
        dueDate := jsOrStr t.dueDate (today ++ "T23:59")
        completed := false
        isAiGenerated := some true
        subtasks := sanitized }

/-- `handleCopilotAddTasks`: bucket the suggestions into updates and
creates, apply the updates in place over the previous task list, and
prepend the created tasks (`[...tasksToCreate, ...updatedList]`).
`freshSub k` / `freshId k` supply the uuids drawn while processing the
`k`-th suggestion. -/
def handleCopilotAddTasks (stories : List Story) (tasks : List TaskRec)
    (currentThemeId today : String) (freshSub : Nat → Nat → String)
    (freshId : Nat → String) (suggestedTasks : List PartialTask) : List TaskRec :=
  let outcomes := suggestedTasks.enum.map
    (fun p => processSuggestion stories tasks currentThemeId today (freshSub p.1) (freshId p.1) p.2)
  let tasksToUpdate := outcomes.filterMap
    (fun o => match o with | .update t => some t | .create _ => none)
  let tasksToCreate := outcomes.filterMap
    (fun o => match o with | .create t => some t | .update _ => none)
  let updatedList := tasksToUpdate.foldl
    (fun acc u => acc.map (fun t => if t.id == u.id then u else t)) tasks
  tasksToCreate ++ updatedList

/-! ## Gemini proxy client (src/services/gemini.ts `callGeminiProxy`) -/

/-- `'gemini-3-flash-preview'`, the default model. -/
def primaryModel : String := "gemini-3-flash-preview"

/-- `'gemini-2.0-flash'`, the stable fallback model. -/
def fallbackModel : String := "gemini-2.0-flash"

/-- `new Error(error.message || "Failed to contact AI service")`. -/
def wrapProxyError (msg : String) : String :=
  if msg = "" then "Failed to contact AI service" else msg

/-- `new Error(fallbackError.message || "Failed to contact AI service (Fallback)")`. -/
def wrapFallbackError (msg : String) : String :=
  if msg = "" then "Failed to contact AI service (Fallback)" else msg

/-- `callGeminiProxy`.  `invoke m` models
`supabase.functions.invoke('gemini-proxy', ...)` with `params.model = m`
(an `{ error }` reply and a thrown transport error both end in the
`catch`, so both are `.error`).  Returns the outcome together with the
list of models invoked, in call order. -/
def callGeminiProxy {α : Type} (invoke : String → Except String α)
    (paramsModel : Option String) : Except String α × List String :=
  let modelToUse := paramsModel.getD primaryModel
  match invoke modelToUse with
  | .ok d => (.ok d, [modelToUse])
  | .error e =>
    if modelToUse ≠ primaryModel then
      (.error (wrapProxyError e), [modelToUse])
    else
      match invoke fallbackModel with
      | .ok d => (.ok d, [modelToUse, fallbackModel])
      | .error e2 => (.error (wrapFallbackError e2), [modelToUse, fallbackModel])

/-! ## Chat history persistence (src/services/chatHistory.ts) -/

/-- `'user' | 'ai'`. -/
inductive Sender where
  | user | ai
deriving DecidableEq, Repr

/-- `ChatMessage` of `src/types.ts`.  The `timestamp` is epoch
milliseconds (in the stored form it is the corresponding ISO string; the
Date/string round-trip of `serializeMessages`/`deserializeMessages` is
identity on the instant and is elided here). -/
structure ChatMsg where
  id : String
  text : String
  sender : Sender
  timestamp : Int := 0
  suggestedTasks : Option (List PartialTask) := none
  suggestedTheme : Option PartialTheme := none
  suggestedStory : Option PartialStory := none
  appliedTaskIds : Option (List String) := none
  rejectedTaskIds : Option (List String) := none
  themeApplied : Option Bool := none
  themeRejected : Option Bool := none
  storyApplied : Option Bool := none
  storyRejected : Option Bool := none
deriving DecidableEq, Repr

/-- `ChatSession` of `src/types.ts`. -/
structure ChatSession where
  id : String
  title : String
  createdAt : String
  updatedAt : String
  messages : List ChatMsg
deriving DecidableEq, Repr

/-- `MAX_SESSIONS = 20`. -/
def MAX_SESSIONS : Nat := 20

/-- `saveChatSession` (chatHistory.ts lines 39-65), acting on the stored
session list: stamp the session with a fresh `updatedAt`, replace the
stored entry with the same id in place if one exists
(`sessions.findIndex`), otherwise prepend (`unshift`), then truncate to
the first `MAX_SESSIONS` entries (`slice(0, MAX_SESSIONS)`). -/
def saveChatSession (now : String) (sessions : List ChatSession)
    (session : ChatSession) : List ChatSession :=
  let sessionToSave := { session with updatedAt := now }
  let updated :=
    match sessions.findIdx? (fun s => s.id == session.id) with
    | some index => sessions.set index sessionToSave
    | none => sessionToSave :: sessions
  updated.take MAX_SESSIONS

/-! ## Per-message suggestion marks (Copilot.tsx lines 192-225) -/

/-- The message update inside `handleApplySingleTask`:
`{ ...m, appliedTaskIds: [...(m.appliedTaskIds || []), index.toString()] }`
applied when `m.id === msgId`. -/
def markAppliedMsg (msgId : String) (index : Nat) (m : ChatMsg) : ChatMsg :=
  if m.id = msgId then
    { m with appliedTaskIds := some (m.appliedTaskIds.getD [] ++ [toString index]) }
  else m

/-- The message update inside `handleRejectTask`:
`{ ...m, rejectedTaskIds: [...(m.rejectedTaskIds || []), index.toString()] }`. -/
def markRejectedMsg (msgId : String) (index : Nat) (m : ChatMsg) : ChatMsg :=
  if m.id = msgId then
    { m with rejectedTaskIds := some (m.rejectedTaskIds.getD [] ++ [toString index]) }
  else m

/-- The session update of `handleApplySingleTask`: map `markAppliedMsg`
over the messages of the session with the current id, leave the rest. -/
def applyMarkSession (curId msgId : String) (index : Nat) (s : ChatSession) : ChatSession :=
  if s.id = curId then { s with messages := s.messages.map (markAppliedMsg msgId index) }
  else s

/-- The session update of `handleRejectTask`. -/
def rejectMarkSession (curId msgId : String) (index : Nat) (s : ChatSession) : ChatSession :=
  if s.id = curId then { s with messages := s.messages.map (markRejectedMsg msgId index) }
  else s

/-- `handleApplySingleTask`'s `setSessions` updater (the `onAddTasks`
call and the `saveChatSession` persistence of the updated session do not
touch the session-list state). -/
def handleApplySingleTask (curId msgId : String) (index : Nat)
    (sessions : List ChatSession) : List ChatSession :=
  sessions.map (applyMarkSession curId msgId index)

/-- `handleRejectTask`'s `setSessions` updater. -/
def handleRejectTask (curId msgId : String) (index : Nat)
    (sessions : List ChatSession) : List ChatSession :=
  sessions.map (rejectMarkSession curId msgId index)

/-- `msg.appliedTaskIds?.includes(i.toString())` — how the UI decides a
suggestion index is applied (Copilot.tsx line 437). -/
def isAppliedIdx (m : ChatMsg) (i : Nat) : Bool :=
  (m.appliedTaskIds.getD []).contains (toString i)

/-- `msg.rejectedTaskIds?.includes(i.toString())` (Copilot.tsx line 438). -/
def isRejectedIdx (m : ChatMsg) (i : Nat) : Bool :=
  (m.rejectedTaskIds.getD []).contains (toString i)

/-! ## Calendar export (CalendarButton.tsx, `src/unnamed/part_000`)

`Date` values are modelled as epoch milliseconds (`Int`); `tz` is the
local timezone offset in milliseconds east of UTC, so the local clock
reading of an instant `ms` is `ms + tz`. -/

def msPerMinute : Int := 60000
def msPerHour : Int := 3600000
def msPerDay : Int := 86400000

/-- What `getEventDates` inspects about the `task.dueDate` string:
the instant `new Date(task.dueDate)` denotes, whether the string
contains `'T'`, and whether it ends in `"T00:00:00.000Z"` or
`"T00:00:00Z"`. -/
structure DueDateStr where
  ms : Int
  hasT : Bool
  endsMidnightZ : Bool
deriving DecidableEq, Repr

/-- The `hasTime` test of `getEventDates`: contains `'T'` and does not
end in a midnight-UTC suffix. -/
def dueDateHasTime (d : DueDateStr) : Bool := d.hasT && !d.endsMidnightZ

/-- `startDate.setHours(9, 0, 0, 0)`: move the instant to 09:00:00.000
local time on the same local calendar day. -/
def setHoursNine (tz : Int) (ms : Int) : Int :=
  (ms + tz) / msPerDay * msPerDay + 9 * msPerHour - tz

/-- `getEventDates` (part_000 lines 24-41): event start is the due-date
instant, moved to 9 AM local when the string carries no time component;
event end is start plus `estimatedMinutes` minutes. -/
def getEventDates (tz : Int) (dueDate : DueDateStr) (estimatedMinutes : Nat) : Int × Int :=
  let startDate :=
    if dueDateHasTime dueDate then dueDate.ms else setHoursNine tz dueDate.ms
  (startDate, startDate + (estimatedMinutes : Int) * msPerMinute)

/-- The instant denoted by `formatDate`, which strips the dashes, the
colons and the three millisecond digits out of `date.toISOString()`
(giving a `YYYYMMDDTHHMMSSZ` UTC stamp): the instant truncated to whole
seconds. -/
def formatDateInstant (ms : Int) : Int := ms - ms.emod 1000

/-- The pair of instants the Google Calendar URL's `dates` parameter
denotes (`handleGoogleCalendar`, part_000 lines 43-55). -/
def googleEventInstants (tz : Int) (d : DueDateStr) (est : Nat) : Int × Int :=
  let se := getEventDates tz d est
  (formatDateInstant se.1, formatDateInstant se.2)

/-- The pair of instants `DTSTART`/`DTEND` of the exported VEVENT denote
(`handleDownloadICS`, part_000 lines 62-81). -/
def icsEventInstants (tz : Int) (d : DueDateStr) (est : Nat) : Int × Int :=
  let se := getEventDates tz d est
  (formatDateInstant se.1, formatDateInstant se.2)

/-! ## Action-tag extraction (Copilot.tsx `handleSendMessage`, lines 117-143)

The response text is a list of characters.  The three patterns are of
the shape "open tag, lazy any-character group, close tag"; such a
pattern matches at the leftmost open-tag occurrence that is followed by
a close-tag occurrence, and the lazy group ends at the earliest close
tag.  `splitOnce pat s` locates the first occurrence of the literal
`pat` in `s`, returning the text before it and the text after it. -/

abbrev Str := List Char

/-- Text free of `'<'`, the character every tag pattern starts with:
prose or JSON payloads that cannot take part in any tag occurrence. -/
abbrev noTagChar (x : Str) : Prop := ∀ c ∈ x, c ≠ '<'

/-- First occurrence of the literal `pat` in `s`: `some (pre, post)`
with `s = pre ++ pat ++ post` and no earlier occurrence, `none` when
`pat` does not occur. -/
def splitOnce (pat : Str) : Str → Option (Str × Str)
  | [] => if pat.isPrefixOf ([] : Str) then some ([], []) else none
  | c :: cs =>
    if pat.isPrefixOf (c :: cs) then some ([], (c :: cs).drop pat.length)
    else (splitOnce pat cs).map (fun p => (c :: p.1, p.2))

/-- The capture group of `responseText.match` for one action-tag
pattern: the text between the first open tag that has a close tag after
it and the earliest such close tag. -/
def firstCapture (openTag closeTag : Str) (s : Str) : Option Str :=
  (splitOnce openTag s).bind fun p => (splitOnce closeTag p.2).map Prod.fst

/-- Splits `s` around its first full tag match: the text before the open
tag and the text after the close tag. -/
def removeFirst (openTag closeTag : Str) (s : Str) : Option (Str × Str) :=
  (splitOnce openTag s).bind fun p =>
    (splitOnce closeTag p.2).map fun q => (p.1, q.2)

theorem splitOnce_some_eq {pat s pre post : Str}
    (h : splitOnce pat s = some (pre, post)) : s = pre ++ pat ++ post := by
  induction s generalizing pre post with
  | nil =>
    rw [splitOnce] at h
    by_cases hp : pat.isPrefixOf ([] : Str)
    · have hpat : pat = [] := List.prefix_nil.mp (List.isPrefixOf_iff_prefix.mp hp)
      rw [if_pos hp] at h
      obtain ⟨h1, h2⟩ := Prod.mk.injEq .. ▸ Option.some.inj h
      subst h1; subst h2; simp [hpat]
    · rw [if_neg hp] at h
      exact absurd h (by simp)
  | cons c cs ih =>
    rw [splitOnce] at h
    by_cases hp : pat.isPrefixOf (c :: cs)
    · rw [if_pos hp] at h
      obtain ⟨t, ht⟩ := List.isPrefixOf_iff_prefix.mp hp
      obtain ⟨h1, h2⟩ := Prod.mk.injEq .. ▸ Option.some.inj h
      subst h1
      have : (c :: cs).drop pat.length = t := by
        rw [← ht]; exact List.drop_left pat t
      rw [this] at h2
      subst h2
      simpa using ht.symm
    · rw [if_neg hp] at h
      cases hrec : splitOnce pat cs with
      | none => rw [hrec] at h; exact absurd h (by simp)
      | some q =>
        rw [hrec] at h
        obtain ⟨h1, h2⟩ := Prod.mk.injEq .. ▸ Option.some.inj h
        have := ih (show splitOnce pat cs = some (q.1, q.2) by rw [hrec])
        subst h2
        rw [← h1, this]
        simp

theorem removeFirst_post_length {openTag closeTag s pre post : Str}
    (ho : openTag ≠ []) (h : removeFirst openTag closeTag s = some (pre, post)) :
    post.length < s.length := by
  unfold removeFirst at h
  cases h1 : splitOnce openTag s with
  | none => rw [h1] at h; exact absurd h (by simp)
  | some p =>
    rw [h1] at h
    cases h2 : splitOnce closeTag p.2 with
    | none => simp [h2] at h
    | some q =>
      simp only [h2, Option.some_bind, Option.map_some', Option.some.injEq,
        Prod.mk.injEq] at h
      obtain ⟨hpre, hpost⟩ := h
      subst hpost
      have e1 := splitOnce_some_eq h1
      have e2 := splitOnce_some_eq
        (show splitOnce closeTag p.2 = some (q.1, q.2) by rw [h2])
      have hlen : s.length = p.1.length + openTag.length + (q.1.length + closeTag.length + q.2.length) := by
        rw [e1, e2]; simp; omega
      have hol : 0 < openTag.length := List.length_pos.mpr ho
      omega

/-- One global-replace step chain: `responseText.replace(pattern, '')`
with the `g` flag removes every non-overlapping match, scanning left to
right. -/
def stripTag (openTag closeTag : Str) (s : Str) : Str :=
  if ho : openTag = [] then s
  else
    match h : removeFirst openTag closeTag s with
    | none => s
    | some p => p.1 ++ stripTag openTag closeTag p.2
termination_by s.length
decreasing_by exact removeFirst_post_length ho h

/-- The JS whitespace class relevant to `String.prototype.trim` for the
characters this codebase produces (space, tab, LF, CR, FF, VT). -/
def isJsWs (c : Char) : Bool :=
  c = ' ' || c = '\t' || c = '\n' || c = '\r' || c = Char.ofNat 11 || c = Char.ofNat 12

/-- `.trim()`: drop whitespace from both ends. -/
def jsTrim (s : Str) : Str :=
  ((s.dropWhile isJsWs).reverse.dropWhile isJsWs).reverse

def tasksOpenTag : Str := "<JSON_ACTION type=\"TASKS\">".data

def themeOpenTag : Str := "<JSON_ACTION type=\"THEME\">".data

def storyOpenTag : Str := "<JSON_ACTION type=\"STORY\">".data

def actionCloseTag : Str := "</JSON_ACTION>".data

/-- `cleanText` of `handleSendMessage` (lines 122-126): strip every
`TASKS` match, then every `THEME` match, then every `STORY` match, then
trim. -/
def cleanText (r : Str) : Str :=
  jsTrim (stripTag storyOpenTag actionCloseTag
    (stripTag themeOpenTag actionCloseTag
      (stripTag tasksOpenTag actionCloseTag r)))

/-- The fields of the AI `ChatMessage` that the parsing step fills in.
`J` is the abstract type of `JSON.parse` results. -/
structure AiMessage (J : Type) where
  text : Str
  suggestedTasks : Option J := none
  suggestedTheme : Option J := none
  suggestedStory : Option J := none
deriving DecidableEq, Repr

/-- One suggestion slot (lines 135-143): the capture must be truthy
(present and nonempty) and `JSON.parse` must succeed, otherwise the slot
stays `undefined` (`try ... catch (e) { }`). -/
def suggestionSlot {J : Type} (parse : Str → Option J) (openTag r : Str) : Option J :=
  match firstCapture openTag actionCloseTag r with
  | some c => if c.isEmpty then none else parse c
  | none => none

/-- The message-parsing step of `handleSendMessage` (lines 117-143),
producing the AI message from the raw LLM response text.  `parse`
models `JSON.parse`. -/
def parseAiResponse {J : Type} (parse : Str → Option J) (r : Str) : AiMessage J :=
  { text := cleanText r
    suggestedTasks := suggestionSlot parse tasksOpenTag r
    suggestedTheme := suggestionSlot parse themeOpenTag r
    suggestedStory := suggestionSlot parse storyOpenTag r }

/-! # Theorems -/

/-! ## C3 — deleting a theme (Dashboard.tsx `handleDeleteTheme`) -/

/-- C3: with more than one theme in local state, `handleDeleteTheme`
removes the theme with the given id together with every task and every
story whose `themeId` references it; with exactly one theme left, the
deletion is rejected and themes, tasks and stories are unchanged. -/
theorem handleDeleteTheme_spec (st : DashState) (themeId : String) :
    (1 < st.themes.length →
      (∀ t, t ∈ (handleDeleteTheme st themeId).themes ↔ t ∈ st.themes ∧ t.id ≠ themeId) ∧
      (∀ tk, tk ∈ (handleDeleteTheme st themeId).tasks ↔ tk ∈ st.tasks ∧ tk.themeId ≠ themeId) ∧
      (∀ s, s ∈ (handleDeleteTheme st themeId).stories ↔
        s ∈ st.stories ∧ s.themeId ≠ some themeId)) ∧
    (st.themes.length = 1 → handleDeleteTheme st themeId = st) := by
  constructor
  · intro h
    unfold handleDeleteTheme
    rw [if_neg (by omega)]
    refine ⟨fun t => ?_, fun tk => ?_, fun s => ?_⟩ <;> simp [List.mem_filter]
  · intro h
    unfold handleDeleteTheme
    rw [if_pos (by omega)]

/-- Witness for C3: a concrete two-theme state loses theme `t1` and the
task/story referencing it; a one-theme state is left untouched. -/
theorem handleDeleteTheme_spec_witness :
    (({ id := "tk", themeId := "t1", title := "a", category := .Career, dueDate := "",
        estimatedMinutes := 5, completed := false } : TaskRec) ∈
        (handleDeleteTheme
          { themes := [{ id := "t1", title := "A", description := "", startDate := "",
                         endDate := "", style := ⟨"", "", "", "", ""⟩ },
                       { id := "t2", title := "B", description := "", startDate := "",
                         endDate := "", style := ⟨"", "", "", "", ""⟩ }]
            tasks := [{ id := "tk", themeId := "t1", title := "a", category := .Career,
                        dueDate := "", estimatedMinutes := 5, completed := false }]
            stories := []
            currentThemeId := "t1" } "t1").tasks ↔
      (({ id := "tk", themeId := "t1", title := "a", category := .Career, dueDate := "",
          estimatedMinutes := 5, completed := false } : TaskRec) ∈
        [({ id := "tk", themeId := "t1", title := "a", category := .Career, dueDate := "",
            estimatedMinutes := 5, completed := false } : TaskRec)] ∧ "t1" ≠ "t1")) ∧
    handleDeleteTheme
      { themes := [{ id := "t1", title := "A", description := "", startDate := "",
                     endDate := "", style := ⟨"", "", "", "", ""⟩ }]
        tasks := [], stories := [], currentThemeId := "t1" } "t1" =
      { themes := [{ id := "t1", title := "A", description := "", startDate := "",
                     endDate := "", style := ⟨"", "", "", "", ""⟩ }]
        tasks := [], stories := [], currentThemeId := "t1" } :=
  ⟨((handleDeleteTheme_spec _ "t1").1 (by decide)).2.1 _,
   (handleDeleteTheme_spec _ "t1").2 (by decide)⟩

/-! ## C4 — the theme selected as "current" on load (Dashboard.tsx `loadData`) -/

/-- C4 (amended): on load, the selected theme is the first loaded theme
whose `[startDate, endDate]` range contains today (and it does contain
today); when no range contains today, the selected theme is the **last
element of the fetched list** — `getThemes` issues no `ORDER BY` and
drops the `created_at` column, so this need not be the most-recently-
created theme. -/
theorem loadData_selects_active_theme (today : String) (themes : List Theme) :
    (∀ t, themes.find? (themeContainsToday today) = some t →
      selectActiveTheme today themes = some t ∧
      jsStrLe t.startDate today = true ∧ jsStrLe today t.endDate = true) ∧
    (themes.find? (themeContainsToday today) = none →
      selectActiveTheme today themes = themes.getLast?) := by
  constructor
  · intro t h
    refine ⟨?_, ?_⟩
    · unfold selectActiveTheme
      rw [h]; rfl
    · have hb := List.find?_some h
      unfold themeContainsToday at hb
      rw [Bool.and_eq_true] at hb
      exact hb
  · intro h
    unfold selectActiveTheme
    rw [h]
    rfl

/-- Witness for C4 (amended): the spec's example theme
`[2026-01-01, 2026-02-15]` is selected when today is 2026-01-20, and
with two themes whose ranges both miss today the last fetched one is
selected. -/
theorem loadData_selects_active_theme_witness :
    selectActiveTheme "2026-01-20"
      [{ id := "kick", title := "2026 Kickoff", description := "", startDate := "2026-01-01",
         endDate := "2026-02-15", style := ⟨"", "", "", "", ""⟩ }] =
      some { id := "kick", title := "2026 Kickoff", description := "", startDate := "2026-01-01",
             endDate := "2026-02-15", style := ⟨"", "", "", "", ""⟩ } ∧
    selectActiveTheme "2026-01-20"
      [{ id := "m1", title := "March A", description := "", startDate := "2026-03-01",
         endDate := "2026-03-10", style := ⟨"", "", "", "", ""⟩ },
       { id := "m2", title := "March B", description := "", startDate := "2026-03-11",
         endDate := "2026-03-20", style := ⟨"", "", "", "", ""⟩ }] =
      some { id := "m2", title := "March B", description := "", startDate := "2026-03-11",
             endDate := "2026-03-20", style := ⟨"", "", "", "", ""⟩ } :=
  ⟨((loadData_selects_active_theme "2026-01-20" _).1 _ (by decide)).1,
   by rw [(loadData_selects_active_theme "2026-01-20" _).2 (by decide)]; rfl⟩

/-- Counterexample for C4 as stated: with two fetched rows whose ranges
both miss today, the row created later (`created_at` 2026-01-05) comes
first in the fetched order, so the code picks the *earlier-created* last
row while the claim demands the most-recently-created one.  (No
`ORDER BY` constrains the fetched order.) -/
theorem loadData_fallback_counterexample :
    codeSelectedTheme "2026-01-20"
      [{ theme := { id := "m1", title := "March A", description := "", startDate := "2026-03-01",
                    endDate := "2026-03-10", style := ⟨"", "", "", "", ""⟩ },
         createdAt := "2026-01-05" },
       { theme := { id := "m2", title := "March B", description := "", startDate := "2026-03-11",
                    endDate := "2026-03-20", style := ⟨"", "", "", "", ""⟩ },
         createdAt := "2026-01-01" }] ≠
    claimSelectedTheme "2026-01-20"
      [{ theme := { id := "m1", title := "March A", description := "", startDate := "2026-03-01",
                    endDate := "2026-03-10", style := ⟨"", "", "", "", ""⟩ },
         createdAt := "2026-01-05" },
       { theme := { id := "m2", title := "March B", description := "", startDate := "2026-03-11",
                    endDate := "2026-03-20", style := ⟨"", "", "", "", ""⟩ },
         createdAt := "2026-01-01" }] := by decide

/-! ## C5 — due-date round-trip through the calendar formatter -/

/-- Counterexample for C5 as stated: a task due `"2026-01-01"` (a
date-only string, parsed by `new Date` as midnight UTC, instant
1767225600000) is deliberately moved to 9 AM by `getEventDates` (here in
a UTC locale, `tz = 0`), so the exported stamp denotes an instant nine
hours after the one the due date was constructed with. -/
theorem dueDate_roundtrip_counterexample :
    formatDateInstant
        ((getEventDates 0 { ms := 1767225600000, hasT := false, endsMidnightZ := false } 30).1)
      ≠ 1767225600000 := by decide

/-- C5 (amended): the round-trip holds exactly as claimed for every task
whose due-date string carries an explicit time component (contains `'T'`
and does not end in a midnight-UTC suffix) and denotes a whole-second
instant: the exported start stamp denotes the very instant the due date
was constructed with, in every timezone. -/
theorem dueDate_roundtrip_with_time (tz : Int) (d : DueDateStr) (est : Nat)
    (h1 : dueDateHasTime d = true) (h2 : d.ms.emod 1000 = 0) :
    formatDateInstant ((getEventDates tz d est).1) = d.ms := by
  unfold getEventDates formatDateInstant
  simp only [h1, if_true, h2]
  omega

/-- Witness for C5 (amended) at a concrete timed due date. -/
theorem dueDate_roundtrip_with_time_witness :
    formatDateInstant
        ((getEventDates (-18000000) { ms := 1767312000000, hasT := true, endsMidnightZ := false } 45).1)
      = 1767312000000 :=
  dueDate_roundtrip_with_time (-18000000)
    { ms := 1767312000000, hasT := true, endsMidnightZ := false } 45 (by decide) (by decide)

/-! ## C6 — both calendar exports derive start/end from the due date -/

/-- C6: the Google Calendar export and the iCalendar export format the
same event instants; the event end is the event start plus
`estimatedMinutes` minutes; when the due-date string carries an explicit
time component the start is the due-date instant itself; and when the
string carries no time component at all (no `'T'`) the start reads
09:00:00.000 on the due date's local calendar day. -/
theorem calendar_exports_start_end (tz : Int) (d : DueDateStr) (est : Nat) :
    googleEventInstants tz d est = icsEventInstants tz d est ∧
    (getEventDates tz d est).2 = (getEventDates tz d est).1 + (est : Int) * msPerMinute ∧
    (dueDateHasTime d = true → (getEventDates tz d est).1 = d.ms) ∧
    (d.hasT = false →
      ((getEventDates tz d est).1 + tz) % msPerDay = 9 * msPerHour ∧
      ((getEventDates tz d est).1 + tz) / msPerDay = (d.ms + tz) / msPerDay) := by
  refine ⟨rfl, rfl, fun h => ?_, fun h => ?_⟩
  · unfold getEventDates
    simp [h]
  · have hno : dueDateHasTime d = false := by
      unfold dueDateHasTime
      rw [h]
      rfl
    unfold getEventDates setHoursNine
    simp only [hno, Bool.false_eq_true, if_false]
    constructor
    · have : (d.ms + tz) / msPerDay * msPerDay + 9 * msPerHour - tz + tz
          = 9 * msPerHour + msPerDay * ((d.ms + tz) / msPerDay) := by ring
      rw [this, Int.add_mul_emod_self_left]
      decide
    · have hsum : (d.ms + tz) / msPerDay * msPerDay + 9 * msPerHour - tz + tz
          = 9 * msPerHour + msPerDay * ((d.ms + tz) / msPerDay) := by ring
      have h9 : (9 : Int) * msPerHour / msPerDay = 0 := by decide
      rw [hsum, Int.add_mul_ediv_left _ _ (by decide : msPerDay ≠ 0), h9, zero_add]

/-- Witness for C6: a concrete date-only due date in a UTC-5 locale gets
a 9 AM local start, and the end is 30 minutes later. -/
theorem calendar_exports_start_end_witness :
    (dueDateHasTime { ms := 1767312000000, hasT := true, endsMidnightZ := false } = true →
      (getEventDates 0 { ms := 1767312000000, hasT := true, endsMidnightZ := false } 30).1
        = 1767312000000) ∧
    (({ ms := 1767225600000, hasT := false, endsMidnightZ := false } : DueDateStr).hasT = false →
      ((getEventDates (-18000000) { ms := 1767225600000, hasT := false, endsMidnightZ := false } 30).1
          + (-18000000)) % msPerDay = 9 * msPerHour ∧
      ((getEventDates (-18000000) { ms := 1767225600000, hasT := false, endsMidnightZ := false } 30).1
          + (-18000000)) / msPerDay = ((1767225600000 : Int) + (-18000000)) / msPerDay) :=
  ⟨(calendar_exports_start_end 0 { ms := 1767312000000, hasT := true, endsMidnightZ := false } 30).2.2.1,
   (calendar_exports_start_end (-18000000)
      { ms := 1767225600000, hasT := false, endsMidnightZ := false } 30).2.2.2⟩

/-! ## C7 — proxy retry policy (`callGeminiProxy`) -/

/-- C7: the proxy client retries exactly once, against the stable
fallback model, when and only when the first call fails and the
requested model resolves to the primary preview model; an error under
any other requested model is propagated without a retry, and a failure
of the fallback retry is propagated as well. -/
theorem callGeminiProxy_retry_policy {α : Type} (invoke : String → Except String α)
    (paramsModel : Option String) :
    ((callGeminiProxy invoke paramsModel).2.length = 2 ↔
      (paramsModel.getD primaryModel = primaryModel ∧
        ∃ e, invoke primaryModel = .error e)) ∧
    (∀ d, invoke (paramsModel.getD primaryModel) = .ok d →
      callGeminiProxy invoke paramsModel = (.ok d, [paramsModel.getD primaryModel])) ∧
    (∀ e, paramsModel.getD primaryModel ≠ primaryModel →
      invoke (paramsModel.getD primaryModel) = .error e →
      callGeminiProxy invoke paramsModel = (.error (wrapProxyError e), [paramsModel.getD primaryModel])) ∧
    (∀ e d, paramsModel.getD primaryModel = primaryModel →
      invoke primaryModel = .error e → invoke fallbackModel = .ok d →
      callGeminiProxy invoke paramsModel = (.ok d, [primaryModel, fallbackModel])) ∧
    (∀ e e2, paramsModel.getD primaryModel = primaryModel →
      invoke primaryModel = .error e → invoke fallbackModel = .error e2 →
      callGeminiProxy invoke paramsModel = (.error (wrapFallbackError e2), [primaryModel, fallbackModel])) := by
  refine ⟨?_, fun d hd => ?_, fun e hm he => ?_, fun e d hm he hf => ?_,
    fun e e2 hm he hf => ?_⟩
  · unfold callGeminiProxy
    by_cases hm : paramsModel.getD primaryModel = primaryModel
    · rw [hm]
      cases hfirst : invoke primaryModel with
      | ok d => simp [hfirst]
      | error e =>
        cases hsecond : invoke fallbackModel with
        | ok d2 => simp [hfirst, hsecond]
        | error e2 => simp [hfirst, hsecond]
    · cases hfirst : invoke (paramsModel.getD primaryModel) with
      | ok d => simp [hfirst, hm]
      | error e => simp [hfirst, hm]
  · unfold callGeminiProxy
    simp [hd]
  · unfold callGeminiProxy
    simp [he, hm]
  · unfold callGeminiProxy
    simp [hm, he, hf]
  · unfold callGeminiProxy
    simp [hm, he, hf]

/-- Witness for C7: a concrete invoker that fails on the primary model
and succeeds on the fallback triggers exactly one retry; a concrete
invoker failing under an explicitly requested non-primary model
propagates the wrapped error with no retry. -/
theorem callGeminiProxy_retry_policy_witness :
    callGeminiProxy
        (fun m => if m = "gemini-3-flash-preview" then Except.error "boom" else Except.ok m)
        none
      = (.ok "gemini-2.0-flash", ["gemini-3-flash-preview", "gemini-2.0-flash"]) ∧
    callGeminiProxy (fun _ => (Except.error "down" : Except String String))
        (some "gemini-1.5-pro")
      = (.error "down", ["gemini-1.5-pro"]) :=
  ⟨(callGeminiProxy_retry_policy
      (fun m => if m = "gemini-3-flash-preview" then Except.error "boom" else Except.ok m)
      none).2.2.2.1 "boom" "gemini-2.0-flash" rfl rfl rfl,
   (callGeminiProxy_retry_policy (fun _ => (Except.error "down" : Except String String))
      (some "gemini-1.5-pro")).2.2.1 "down" (by decide) rfl⟩

/-! ## C9 — the stored chat-session list is capped at 20 -/

/-- C9: `saveChatSession` never persists more than `MAX_SESSIONS = 20`
sessions: a stored session with the saved session's id is updated in
place, a new session is prepended, and the resulting list is truncated
to its first 20 entries (so a prepend at the cap silently discards the
last stored session). -/
theorem saveChatSession_caps_sessions (now : String) (sessions : List ChatSession)
    (session : ChatSession) :
    (saveChatSession now sessions session).length ≤ MAX_SESSIONS ∧
    (∀ j, sessions.findIdx? (fun s => s.id == session.id) = some j →
      saveChatSession now sessions session
        = (sessions.set j { session with updatedAt := now }).take MAX_SESSIONS ∧
      (saveChatSession now sessions session).length = min MAX_SESSIONS sessions.length) ∧
    (sessions.findIdx? (fun s => s.id == session.id) = none →
      saveChatSession now sessions session
        = ({ session with updatedAt := now } :: sessions).take MAX_SESSIONS ∧
      (saveChatSession now sessions session).head? = some { session with updatedAt := now } ∧
      (saveChatSession now sessions session).length = min MAX_SESSIONS (sessions.length + 1)) := by
  refine ⟨?_, fun j hj => ?_, fun hn => ?_⟩
  · unfold saveChatSession
    cases sessions.findIdx? (fun s => s.id == session.id) <;>
      simp [List.length_take]
  · unfold saveChatSession
    rw [hj]
    simp [List.length_take]
  · unfold saveChatSession
    rw [hn]
    refine ⟨rfl, ?_, by simp [List.length_take]⟩
    have h20 : (MAX_SESSIONS : Nat) = 19 + 1 := by decide
    rw [h20, List.take_succ_cons]
    rfl

/-- Witness for C9: updating the stored session `b` in place keeps two
sessions; saving a brand-new session prepends it. -/
theorem saveChatSession_caps_sessions_witness :
    saveChatSession "t3" [⟨"a", "one", "c", "u", []⟩, ⟨"b", "two", "c", "u", []⟩]
        ⟨"b", "two+", "c", "u", []⟩
      = [⟨"a", "one", "c", "u", []⟩, ⟨"b", "two+", "c", "t3", []⟩] ∧
    (saveChatSession "t3" [⟨"a", "one", "c", "u", []⟩] ⟨"n", "new", "c", "u", []⟩).head?
      = some ⟨"n", "new", "c", "t3", []⟩ :=
  ⟨by
    rw [((saveChatSession_caps_sessions "t3"
        [⟨"a", "one", "c", "u", []⟩, ⟨"b", "two", "c", "u", []⟩]
        ⟨"b", "two+", "c", "u", []⟩).2.1 1 (by decide)).1]
    rfl,
   ((saveChatSession_caps_sessions "t3" [⟨"a", "one", "c", "u", []⟩]
      ⟨"n", "new", "c", "u", []⟩).2.2 (by decide)).2.1⟩

/-! ## C10 — defaults for a newly created suggested task -/

/-- C10: a suggested task matching no existing task id is created with
the freshly drawn uuid, the current theme's id, `isAiGenerated` true,
`completed` false, and per-field defaults when the suggestion omits
them: title `"New Idea"`, empty description, category `Personal`,
30 estimated minutes, and a due date of today (UTC date of `now`)
at 23:59. -/
theorem copilotAddTasks_create_defaults (stories : List Story) (tasks : List TaskRec)
    (curThemeId today : String) (freshSub : Nat → Nat → String) (freshId : Nat → String)
    (t : PartialTask) (hno : lookupExisting tasks t.id = none) :
    ∃ c : TaskRec,
      handleCopilotAddTasks stories tasks curThemeId today freshSub freshId [t] = c :: tasks ∧
      c.id = freshId 0 ∧ c.themeId = curThemeId ∧ c.isAiGenerated = some true ∧
      c.completed = false ∧
      (t.title = none → c.title = "New Idea") ∧
      (t.description = none → c.description = some "") ∧
      (t.category = none → c.category = Category.Personal) ∧
      (t.estimatedMinutes = none → c.estimatedMinutes = 30) ∧
      (t.dueDate = none → c.dueDate = today ++ "T23:59") := by
  refine ⟨{ id := freshId 0
            themeId := curThemeId
            storyId := resolveStoryId stories t.storyId
            title := jsOrStr t.title "New Idea"
            description := some (jsOrStr t.description "")
            category := t.category.getD Category.Personal
            estimatedMinutes := jsOrNat t.estimatedMinutes 30
            dueDate := jsOrStr t.dueDate (today ++ "T23:59")
            completed := false
            isAiGenerated := some true
            subtasks := sanitizeSubtasks (freshSub 0) t.subtasks }, ?_, rfl, rfl, rfl, rfl,
    fun h => by show jsOrStr t.title "New Idea" = "New Idea"; rw [h]; rfl,
    fun h => by show some (jsOrStr t.description "") = some ""; rw [h]; rfl,
    fun h => by show t.category.getD Category.Personal = Category.Personal; rw [h]; rfl,
    fun h => by show jsOrNat t.estimatedMinutes 30 = 30; rw [h]; rfl,
    fun h => by show jsOrStr t.dueDate (today ++ "T23:59") = today ++ "T23:59"; rw [h]; rfl⟩
  have hp : processSuggestion stories tasks curThemeId today (freshSub 0) (freshId 0) t
      = .create
        { id := freshId 0
          themeId := curThemeId
          storyId := resolveStoryId stories t.storyId
          title := jsOrStr t.title "New Idea"
          description := some (jsOrStr t.description "")
          category := t.category.getD Category.Personal
          estimatedMinutes := jsOrNat t.estimatedMinutes 30
          dueDate := jsOrStr t.dueDate (today ++ "T23:59")
          completed := false
          isAiGenerated := some true
          subtasks := sanitizeSubtasks (freshSub 0) t.subtasks } := by
    unfold processSuggestion
    rw [hno]
  unfold handleCopilotAddTasks
  simp [List.enum, List.enumFrom, hp]

/-- Witness for C10: a bare suggestion (`Partial<Task>` with every field
omitted) against an empty board becomes a fully defaulted task. -/
theorem copilotAddTasks_create_defaults_witness :
    ∃ c : TaskRec,
      handleCopilotAddTasks [] [] "th1" "2026-01-20" (fun _ _ => "uuid-sub")
          (fun _ => "uuid-0") [{}] = c :: [] ∧
      c.id = "uuid-0" ∧ c.themeId = "th1" ∧ c.isAiGenerated = some true ∧
      c.completed = false ∧
      (({} : PartialTask).title = none → c.title = "New Idea") ∧
      (({} : PartialTask).description = none → c.description = some "") ∧
      (({} : PartialTask).category = none → c.category = Category.Personal) ∧
      (({} : PartialTask).estimatedMinutes = none → c.estimatedMinutes = 30) ∧
      (({} : PartialTask).dueDate = none → c.dueDate = "2026-01-20" ++ "T23:59") :=
  copilotAddTasks_create_defaults [] [] "th1" "2026-01-20" (fun _ _ => "uuid-sub")
    (fun _ => "uuid-0") {} (by decide)

/-! ## C2 — story resolution for suggested tasks -/

/-- Counterexample for C2 as stated: a suggestion that *updates* the
existing task `e1` and carries the unresolvable `storyId` `"zzz"` (no
story by id, none by title — the story list is empty) does **not** end
with no story association: the update keeps the existing task's
`storyId` `"s1"` (Dashboard.tsx line 690). -/
theorem storyId_resolution_counterexample :
    (handleCopilotAddTasks []
        [{ id := "e1", themeId := "th", storyId := some "s1", title := "Old",
           category := .Career, dueDate := "2026-01-01", estimatedMinutes := 10,
           completed := false }]
        "th" "2026-01-20" (fun _ _ => "u") (fun _ => "u0")
        [{ id := some "e1", storyId := some "zzz" }]).map TaskRec.storyId
      = [some "s1"] ∧ (some "s1" : Option String) ≠ none := by
  constructor
  · rfl
  · decide

/-- C2 (amended): a truthy `storyId` in a suggestion is resolved by
exact id match first; failing that, by case-insensitive title match,
replacing it with the matched story's id; when neither matches, a
*newly created* task carries no story association, while a suggestion
updating an existing task keeps that task's previous story
association. -/
theorem storyId_resolution (stories : List Story) (tasks : List TaskRec)
    (curThemeId today : String) (freshSub : Nat → String) (freshId : String)
    (t : PartialTask) (sid : String) (hsid : t.storyId = some sid) (hne : sid ≠ "") :
    ((stories.find? (fun st => st.id == sid)).isSome →
      resolveStoryId stories t.storyId = some sid) ∧
    (∀ st, stories.find? (fun st => st.id == sid) = none →
      stories.find? (fun st => lowerStr st.title == lowerStr sid) = some st →
      resolveStoryId stories t.storyId = some st.id) ∧
    (stories.find? (fun st => st.id == sid) = none →
      stories.find? (fun st => lowerStr st.title == lowerStr sid) = none →
      resolveStoryId stories t.storyId = none ∧
      (lookupExisting tasks t.id = none →
        ∃ c, processSuggestion stories tasks curThemeId today freshSub freshId t
            = .create c ∧ c.storyId = none) ∧
      (∀ ex, lookupExisting tasks t.id = some ex →
        ∃ u, processSuggestion stories tasks curThemeId today freshSub freshId t
            = .update u ∧ u.storyId = ex.storyId)) := by
  refine ⟨fun h => ?_, fun st h1 h2 => ?_, fun h1 h2 => ?_⟩
  · unfold resolveStoryId
    rw [hsid]
    simp [hne, h]
  · unfold resolveStoryId
    rw [hsid]
    simp [hne, h1, h2]
  · have hres : resolveStoryId stories t.storyId = none := by
      unfold resolveStoryId
      rw [hsid]
      simp [hne, h1, h2]
    refine ⟨hres, fun hno => ?_, fun ex hex => ?_⟩
    · unfold processSuggestion
      rw [hno]
      exact ⟨_, rfl, hres⟩
    · unfold processSuggestion
      rw [hex]
      refine ⟨_, rfl, ?_⟩
      show (match resolveStoryId stories t.storyId with
        | some s => some s
        | none => ex.storyId) = ex.storyId
      rw [hres]

/-- Witness for C2 (amended), covering all three branches on a concrete
story list: id `"s1"` matches by id; `"launch webSITE"` matches the
story titled `"Launch Website"` by case-insensitive title and is
replaced by `"s1"`; `"zzz"` matches nothing, so a created task carries
no story and an update keeps `"s9"`. -/
theorem storyId_resolution_witness :
    resolveStoryId [{ id := "s1", title := "Launch Website", createdAt := "2026-01-01" }]
        (some "s1") = some "s1" ∧
    resolveStoryId [{ id := "s1", title := "Launch Website", createdAt := "2026-01-01" }]
        (some "launch webSITE") = some "s1" ∧
    resolveStoryId [{ id := "s1", title := "Launch Website", createdAt := "2026-01-01" }]
        (some "zzz") = none ∧
    (∀ ex, lookupExisting
        [{ id := "e1", themeId := "th", storyId := some "s9", title := "Old",
           category := .Career, dueDate := "2026-01-01", estimatedMinutes := 10,
           completed := false }] (some "e1") = some ex →
      ∃ u, processSuggestion [{ id := "s1", title := "Launch Website", createdAt := "2026-01-01" }]
          [{ id := "e1", themeId := "th", storyId := some "s9", title := "Old",
             category := .Career, dueDate := "2026-01-01", estimatedMinutes := 10,
             completed := false }]
          "th" "2026-01-20" (fun _ => "u") "u0"
          { id := some "e1", storyId := some "zzz" } = .update u ∧ u.storyId = ex.storyId) :=
  ⟨(storyId_resolution [{ id := "s1", title := "Launch Website", createdAt := "2026-01-01" }]
      [] "th" "2026-01-20" (fun _ => "u") "u0" { storyId := some "s1" } "s1"
      rfl (by decide)).1 (by decide),
   (storyId_resolution [{ id := "s1", title := "Launch Website", createdAt := "2026-01-01" }]
      [] "th" "2026-01-20" (fun _ => "u") "u0" { storyId := some "launch webSITE" }
      "launch webSITE" rfl (by decide)).2.1
      { id := "s1", title := "Launch Website", createdAt := "2026-01-01" }
      (by decide) (by decide),
   ((storyId_resolution [{ id := "s1", title := "Launch Website", createdAt := "2026-01-01" }]
      [] "th" "2026-01-20" (fun _ => "u") "u0" { storyId := some "zzz" } "zzz"
      rfl (by decide)).2.2 (by decide) (by decide)).1,
   ((storyId_resolution [{ id := "s1", title := "Launch Website", createdAt := "2026-01-01" }]
      [{ id := "e1", themeId := "th", storyId := some "s9", title := "Old",
         category := .Career, dueDate := "2026-01-01", estimatedMinutes := 10,
         completed := false }]
      "th" "2026-01-20" (fun _ => "u") "u0" { id := some "e1", storyId := some "zzz" } "zzz"
      rfl (by decide)).2.2 (by decide) (by decide)).2.2⟩

/-! ## C8 — applying/rejecting a single suggested task marks only that index -/

/-- C8: `handleApplySingleTask` (resp. `handleRejectTask`) maps a pure
per-session update over the session list; sessions with a different id
and messages with a different id are returned unchanged; on the target
message the update appends exactly `index.toString()` to
`appliedTaskIds` (resp. `rejectedTaskIds`), leaves the other mark list
and the suggestion payload untouched, makes membership of a tag hold iff
it held before or the tag is the applied index's string form, and leaves
every other index's applied/rejected status — hence its pending status —
unchanged. -/
theorem applySingle_reject_single_mark (curId msgId : String) (index : Nat)
    (ss : List ChatSession) (s : ChatSession) (m : ChatMsg) :
    (handleApplySingleTask curId msgId index ss = ss.map (applyMarkSession curId msgId index)) ∧
    (handleRejectTask curId msgId index ss = ss.map (rejectMarkSession curId msgId index)) ∧
    (s.id = curId →
      (applyMarkSession curId msgId index s).messages
        = s.messages.map (markAppliedMsg msgId index) ∧
      (rejectMarkSession curId msgId index s).messages
        = s.messages.map (markRejectedMsg msgId index)) ∧
    (s.id ≠ curId →
      applyMarkSession curId msgId index s = s ∧ rejectMarkSession curId msgId index s = s) ∧
    (m.id ≠ msgId →
      markAppliedMsg msgId index m = m ∧ markRejectedMsg msgId index m = m) ∧
    (m.id = msgId →
      (markAppliedMsg msgId index m).appliedTaskIds
          = some (m.appliedTaskIds.getD [] ++ [toString index]) ∧
      (markAppliedMsg msgId index m).rejectedTaskIds = m.rejectedTaskIds ∧
      (markAppliedMsg msgId index m).suggestedTasks = m.suggestedTasks ∧
      (markRejectedMsg msgId index m).rejectedTaskIds
          = some (m.rejectedTaskIds.getD [] ++ [toString index]) ∧
      (markRejectedMsg msgId index m).appliedTaskIds = m.appliedTaskIds ∧
      (markRejectedMsg msgId index m).suggestedTasks = m.suggestedTasks ∧
      (∀ tag : String,
        tag ∈ (markAppliedMsg msgId index m).appliedTaskIds.getD [] ↔
          tag ∈ m.appliedTaskIds.getD [] ∨ tag = toString index) ∧
      (∀ j : Nat, toString j ≠ toString index →
        isAppliedIdx (markAppliedMsg msgId index m) j = isAppliedIdx m j ∧
        isRejectedIdx (markRejectedMsg msgId index m) j = isRejectedIdx m j)) := by
  refine ⟨rfl, rfl, fun hs => ?_, fun hs => ?_, fun hm => ?_, fun hm => ?_⟩
  · constructor
    · unfold applyMarkSession
      rw [if_pos hs]
    · unfold rejectMarkSession
      rw [if_pos hs]
  · constructor
    · unfold applyMarkSession
      rw [if_neg hs]
    · unfold rejectMarkSession
      rw [if_neg hs]
  · constructor
    · unfold markAppliedMsg
      rw [if_neg hm]
    · unfold markRejectedMsg
      rw [if_neg hm]
  · have ha : markAppliedMsg msgId index m
        = { m with appliedTaskIds := some (m.appliedTaskIds.getD [] ++ [toString index]) } := by
      unfold markAppliedMsg
      rw [if_pos hm]
    have hr : markRejectedMsg msgId index m
        = { m with rejectedTaskIds := some (m.rejectedTaskIds.getD [] ++ [toString index]) } := by
      unfold markRejectedMsg
      rw [if_pos hm]
    rw [ha, hr]
    have key : ∀ (l : List String) (j : Nat), toString j ≠ toString index →
        (l ++ [toString index]).contains (toString j) = l.contains (toString j) := by
      intro l j hj
      induction l with
      | nil => simp [hj]
      | cons c cs ih => simp [List.contains_cons, ih, hj]
    refine ⟨rfl, rfl, rfl, rfl, rfl, rfl, fun tag => ?_, fun j hj => ?_⟩
    · simp
    · constructor
      · unfold isAppliedIdx
        simp only [Option.getD_some]
        exact key _ j hj
      · unfold isRejectedIdx
        simp only [Option.getD_some]
        exact key _ j hj

/-- Witness for C8 on a concrete two-session, two-message state:
applying index 1 of message `m1` in session `a` appends `"1"` to that
message's applied set, session `b` is untouched, message `m2` is
untouched, and index 0 stays pending. -/
theorem applySingle_reject_single_mark_witness :
    (markAppliedMsg "m1" 1
        { id := "m1", text := "hi", sender := .ai, appliedTaskIds := some ["0"] }).appliedTaskIds
      = some (["0"] ++ [toString 1]) ∧
    (applyMarkSession "a" "m1" 1 ⟨"b", "other", "c", "u", []⟩ = ⟨"b", "other", "c", "u", []⟩) ∧
    (markAppliedMsg "m1" 1 { id := "m2", text := "yo", sender := .user }
      = { id := "m2", text := "yo", sender := .user }) ∧
    (isAppliedIdx
        (markAppliedMsg "m1" 1
          { id := "m1", text := "hi", sender := .ai, appliedTaskIds := some ["2"] }) 0
      = isAppliedIdx
          { id := "m1", text := "hi", sender := .ai, appliedTaskIds := some ["2"] } 0) :=
  ⟨((applySingle_reject_single_mark "a" "m1" 1 [] ⟨"b", "other", "c", "u", []⟩
      { id := "m1", text := "hi", sender := .ai, appliedTaskIds := some ["0"] }).2.2.2.2.2
      rfl).1,
   ((applySingle_reject_single_mark "a" "m1" 1 [] ⟨"b", "other", "c", "u", []⟩
      { id := "m1", text := "hi", sender := .ai, appliedTaskIds := some ["0"] }).2.2.2.1
      (by decide)).1,
   ((applySingle_reject_single_mark "a" "m1" 1 [] ⟨"b", "other", "c", "u", []⟩
      { id := "m2", text := "yo", sender := .user }).2.2.2.2.1 (by decide)).1,
   (((applySingle_reject_single_mark "a" "m1" 1 [] ⟨"b", "other", "c", "u", []⟩
      { id := "m1", text := "hi", sender := .ai, appliedTaskIds := some ["2"] }).2.2.2.2.2
      rfl).2.2.2.2.2.2.2 0 (by decide)).1⟩

/-! ## C1 — mixed well-formed/malformed action blocks

Laws of the first-occurrence scanner `splitOnce`, then the claim: a
response made of `'<'`-free prose around one well-formed `TASKS` block
and one malformed `THEME` block parses into exactly the task
suggestions, no theme suggestion, and the prose with both tag spans
stripped and trimmed. -/

theorem splitOnce_append_self (pat z : Str) : splitOnce pat (pat ++ z) = some ([], z) := by
  cases pat with
  | nil =>
    cases z with
    | nil => simp [splitOnce]
    | cons c cs => simp [splitOnce, List.isPrefixOf]
  | cons p ps =>
    have hpre : (p :: ps).isPrefixOf (p :: (ps ++ z)) = true := by
      rw [List.isPrefixOf_iff_prefix, ← List.cons_append]
      exact List.prefix_append _ _
    rw [List.cons_append]
    simp only [splitOnce]
    rw [if_pos hpre]
    simp only [List.length_cons, List.drop_succ_cons, Option.some.injEq, Prod.mk.injEq,
      true_and]
    exact List.drop_left ps z

theorem splitOnce_append_left (pat x z : Str) (hp : pat.head? = some '<')
    (hx : noTagChar x) :
    splitOnce pat (x ++ z) = (splitOnce pat z).map (fun p => (x ++ p.1, p.2)) := by
  induction x with
  | nil =>
    cases h : splitOnce pat z <;> simp [h]
  | cons c cs ih =>
    have hc : c ≠ '<' := hx c (List.mem_cons_self _ _)
    have hnp : pat.isPrefixOf (c :: (cs ++ z)) = false := by
      cases pat with
      | nil => simp at hp
      | cons q qs =>
        simp only [List.head?_cons, Option.some.injEq] at hp
        subst hp
        show (('<' == c) && _) = false
        have hcc : ('<' == c) = false := by
          simp only [beq_eq_false_iff_ne, ne_eq]
          intro he
          exact absurd he.symm hc
        rw [hcc, Bool.false_and]
    rw [List.cons_append]
    simp only [splitOnce]
    rw [if_neg (by simp [hnp]), ih (fun d hd => hx d (List.mem_cons_of_mem _ hd))]
    cases h : splitOnce pat z <;> simp [h]

theorem splitOnce_eq_none (pat x : Str) (hp : pat.head? = some '<') (hx : noTagChar x) :
    splitOnce pat x = none := by
  have hbase : splitOnce pat ([] : Str) = none := by
    cases pat with
    | nil => simp at hp
    | cons q qs => simp [splitOnce, List.isPrefixOf]
  have hleft := splitOnce_append_left pat x [] hp hx
  rw [List.append_nil, hbase] at hleft
  rw [hleft]
  rfl

theorem isPrefixOf_append_eq_false (pat lit z : Str) (n : Nat)
    (h1 : n ≤ pat.length) (h2 : n ≤ lit.length) (hne : pat.take n ≠ lit.take n) :
    pat.isPrefixOf (lit ++ z) = false := by
  cases hb : pat.isPrefixOf (lit ++ z) with
  | false => rfl
  | true =>
    exfalso
    obtain ⟨t, ht⟩ := List.isPrefixOf_iff_prefix.mp hb
    have hta := congrArg (List.take n) ht
    rw [List.take_append_of_le_length h1, List.take_append_of_le_length h2] at hta
    exact hne hta

theorem splitOnce_skip_lit (pat lit z : Str) (hp : pat.head? = some '<')
    (hlh : lit.head? = some '<') (hlt : noTagChar lit.tail)
    (hnp : pat.isPrefixOf (lit ++ z) = false) :
    splitOnce pat (lit ++ z) = (splitOnce pat z).map (fun p => (lit ++ p.1, p.2)) := by
  cases lit with
  | nil => simp at hlh
  | cons c cs =>
    simp only [List.head?_cons, Option.some.injEq] at hlh
    subst hlh
    rw [List.cons_append] at hnp ⊢
    simp only [splitOnce]
    rw [if_neg (by simp [hnp]),
      splitOnce_append_left pat cs z hp (by simpa [noTagChar] using hlt)]
    cases h : splitOnce pat z <;> simp [h]

/-- C1: an LLM response made of `'<'`-free prose around one well-formed
`TASKS` block (nonempty capture that `JSON.parse` accepts) and one
malformed `THEME` block (capture that `JSON.parse` rejects) parses into
a message whose `suggestedTasks` is exactly the parsed task payload,
whose `suggestedTheme` stays `undefined`, and whose display text is the
input with every matched `JSON_ACTION` span (well-formed or not) removed
and trimmed; the `THEME` parse failure does not prevent the `TASKS`
extraction or the display of the surrounding prose; no `STORY`
suggestion appears. -/
theorem sendMessage_mixed_blocks {J : Type} (parse : Str → Option J)
    (p1 p2 p3 a b : Str) (tasks : J)
    (h1 : noTagChar p1) (h2 : noTagChar p2) (h3 : noTagChar p3)
    (ha : noTagChar a) (hb : noTagChar b) (hane : a ≠ [])
    (hparse : parse a = some tasks) (hbad : parse b = none) :
    parseAiResponse parse
        (p1 ++ tasksOpenTag ++ a ++ actionCloseTag ++ p2 ++
          themeOpenTag ++ b ++ actionCloseTag ++ p3)
      = { text := jsTrim (p1 ++ p2 ++ p3)
          suggestedTasks := some tasks
          suggestedTheme := none
          suggestedStory := none } := by
  have hr : p1 ++ tasksOpenTag ++ a ++ actionCloseTag ++ p2 ++
        themeOpenTag ++ b ++ actionCloseTag ++ p3
      = p1 ++ (tasksOpenTag ++ (a ++ (actionCloseTag ++ (p2 ++
          (themeOpenTag ++ (b ++ (actionCloseTag ++ p3))))))) := by
    simp [List.append_assoc]
  have tlTO : noTagChar tasksOpenTag.tail := by decide
  have tlHO : noTagChar themeOpenTag.tail := by decide
  have tlC : noTagChar actionCloseTag.tail := by decide
  have hdTO : tasksOpenTag.head? = some '<' := rfl
  have hdHO : themeOpenTag.head? = some '<' := rfl
  have hdSO : storyOpenTag.head? = some '<' := rfl
  have hdC : actionCloseTag.head? = some '<' := rfl
  have mTO_HO : ∀ z, tasksOpenTag.isPrefixOf (themeOpenTag ++ z) = false := fun z =>
    isPrefixOf_append_eq_false _ _ z 25 (by decide) (by decide) (by decide)
  have mTO_C : ∀ z, tasksOpenTag.isPrefixOf (actionCloseTag ++ z) = false := fun z =>
    isPrefixOf_append_eq_false _ _ z 2 (by decide) (by decide) (by decide)
  have mHO_TO : ∀ z, themeOpenTag.isPrefixOf (tasksOpenTag ++ z) = false := fun z =>
    isPrefixOf_append_eq_false _ _ z 25 (by decide) (by decide) (by decide)
  have mHO_C : ∀ z, themeOpenTag.isPrefixOf (actionCloseTag ++ z) = false := fun z =>
    isPrefixOf_append_eq_false _ _ z 2 (by decide) (by decide) (by decide)
  have mSO_TO : ∀ z, storyOpenTag.isPrefixOf (tasksOpenTag ++ z) = false := fun z =>
    isPrefixOf_append_eq_false _ _ z 25 (by decide) (by decide) (by decide)
  have mSO_HO : ∀ z, storyOpenTag.isPrefixOf (themeOpenTag ++ z) = false := fun z =>
    isPrefixOf_append_eq_false _ _ z 25 (by decide) (by decide) (by decide)
  have mSO_C : ∀ z, storyOpenTag.isPrefixOf (actionCloseTag ++ z) = false := fun z =>
    isPrefixOf_append_eq_false _ _ z 2 (by decide) (by decide) (by decide)
  -- first-occurrence scans
  have sTO : splitOnce tasksOpenTag (p1 ++ (tasksOpenTag ++ (a ++ (actionCloseTag ++ (p2 ++
        (themeOpenTag ++ (b ++ (actionCloseTag ++ p3))))))))
      = some (p1, a ++ (actionCloseTag ++ (p2 ++ (themeOpenTag ++ (b ++ (actionCloseTag ++ p3)))))) := by
    rw [splitOnce_append_left tasksOpenTag p1 _ hdTO h1, splitOnce_append_self]
    simp
  have sC1 : splitOnce actionCloseTag (a ++ (actionCloseTag ++ (p2 ++
        (themeOpenTag ++ (b ++ (actionCloseTag ++ p3))))))
      = some (a, p2 ++ (themeOpenTag ++ (b ++ (actionCloseTag ++ p3)))) := by
    rw [splitOnce_append_left actionCloseTag a _ hdC ha, splitOnce_append_self]
    simp
  have sC2 : splitOnce actionCloseTag (b ++ (actionCloseTag ++ p3)) = some (b, p3) := by
    rw [splitOnce_append_left actionCloseTag b _ hdC hb, splitOnce_append_self]
    simp
  have sHO : splitOnce themeOpenTag (p1 ++ (tasksOpenTag ++ (a ++ (actionCloseTag ++ (p2 ++
        (themeOpenTag ++ (b ++ (actionCloseTag ++ p3))))))))
      = some (p1 ++ (tasksOpenTag ++ (a ++ (actionCloseTag ++ p2))),
          b ++ (actionCloseTag ++ p3)) := by
    rw [splitOnce_append_left themeOpenTag p1 _ hdHO h1,
      splitOnce_skip_lit themeOpenTag tasksOpenTag _ hdHO hdTO tlTO (mHO_TO _),
      splitOnce_append_left themeOpenTag a _ hdHO ha,
      splitOnce_skip_lit themeOpenTag actionCloseTag _ hdHO hdC tlC (mHO_C _),
      splitOnce_append_left themeOpenTag p2 _ hdHO h2,
      splitOnce_append_self]
    simp
  have sSO : splitOnce storyOpenTag (p1 ++ (tasksOpenTag ++ (a ++ (actionCloseTag ++ (p2 ++
        (themeOpenTag ++ (b ++ (actionCloseTag ++ p3)))))))) = none := by
    rw [splitOnce_append_left storyOpenTag p1 _ hdSO h1,
      splitOnce_skip_lit storyOpenTag tasksOpenTag _ hdSO hdTO tlTO (mSO_TO _),
      splitOnce_append_left storyOpenTag a _ hdSO ha,
      splitOnce_skip_lit storyOpenTag actionCloseTag _ hdSO hdC tlC (mSO_C _),
      splitOnce_append_left storyOpenTag p2 _ hdSO h2,
      splitOnce_skip_lit storyOpenTag themeOpenTag _ hdSO hdHO tlHO (mSO_HO _),
      splitOnce_append_left storyOpenTag b _ hdSO hb,
      splitOnce_skip_lit storyOpenTag actionCloseTag _ hdSO hdC tlC (mSO_C _),
      splitOnce_eq_none storyOpenTag p3 hdSO h3]
    rfl
  -- the three capture groups
  have capTO : firstCapture tasksOpenTag actionCloseTag (p1 ++ (tasksOpenTag ++ (a ++
        (actionCloseTag ++ (p2 ++ (themeOpenTag ++ (b ++ (actionCloseTag ++ p3))))))))
      = some a := by
    unfold firstCapture
    rw [sTO]
    simp only [Option.some_bind]
    rw [sC1]
    rfl
  have capHO : firstCapture themeOpenTag actionCloseTag (p1 ++ (tasksOpenTag ++ (a ++
        (actionCloseTag ++ (p2 ++ (themeOpenTag ++ (b ++ (actionCloseTag ++ p3))))))))
      = some b := by
    unfold firstCapture
    rw [sHO]
    simp only [Option.some_bind]
    rw [sC2]
    rfl
  have capSO : firstCapture storyOpenTag actionCloseTag (p1 ++ (tasksOpenTag ++ (a ++
        (actionCloseTag ++ (p2 ++ (themeOpenTag ++ (b ++ (actionCloseTag ++ p3))))))))
      = none := by
    unfold firstCapture
    rw [sSO]
    rfl
  -- global tag stripping
  have rm1 : removeFirst tasksOpenTag actionCloseTag (p1 ++ (tasksOpenTag ++ (a ++
        (actionCloseTag ++ (p2 ++ (themeOpenTag ++ (b ++ (actionCloseTag ++ p3))))))))
      = some (p1, p2 ++ (themeOpenTag ++ (b ++ (actionCloseTag ++ p3)))) := by
    unfold removeFirst
    rw [sTO]
    simp only [Option.some_bind]
    rw [sC1]
    rfl
  have sTO2 : splitOnce tasksOpenTag (p2 ++ (themeOpenTag ++ (b ++ (actionCloseTag ++ p3))))
      = none := by
    rw [splitOnce_append_left tasksOpenTag p2 _ hdTO h2,
      splitOnce_skip_lit tasksOpenTag themeOpenTag _ hdTO hdHO tlHO (mTO_HO _),
      splitOnce_append_left tasksOpenTag b _ hdTO hb,
      splitOnce_skip_lit tasksOpenTag actionCloseTag _ hdTO hdC tlC (mTO_C _),
      splitOnce_eq_none tasksOpenTag p3 hdTO h3]
    rfl
  have rm2 : removeFirst tasksOpenTag actionCloseTag
      (p2 ++ (themeOpenTag ++ (b ++ (actionCloseTag ++ p3)))) = none := by
    unfold removeFirst
    rw [sTO2]
    rfl
  have strip1 : stripTag tasksOpenTag actionCloseTag (p1 ++ (tasksOpenTag ++ (a ++
        (actionCloseTag ++ (p2 ++ (themeOpenTag ++ (b ++ (actionCloseTag ++ p3))))))))
      = p1 ++ (p2 ++ (themeOpenTag ++ (b ++ (actionCloseTag ++ p3)))) := by
    rw [stripTag, dif_neg (by decide : ¬ tasksOpenTag = []), rm1]
    show p1 ++ stripTag tasksOpenTag actionCloseTag
        (p2 ++ (themeOpenTag ++ (b ++ (actionCloseTag ++ p3))))
      = p1 ++ (p2 ++ (themeOpenTag ++ (b ++ (actionCloseTag ++ p3))))
    rw [stripTag, dif_neg (by decide : ¬ tasksOpenTag = []), rm2]
  have sHO2 : splitOnce themeOpenTag (p1 ++ (p2 ++ (themeOpenTag ++ (b ++ (actionCloseTag ++ p3)))))
      = some (p1 ++ p2, b ++ (actionCloseTag ++ p3)) := by
    rw [splitOnce_append_left themeOpenTag p1 _ hdHO h1,
      splitOnce_append_left themeOpenTag p2 _ hdHO h2,
      splitOnce_append_self]
    simp
  have rm3 : removeFirst themeOpenTag actionCloseTag
      (p1 ++ (p2 ++ (themeOpenTag ++ (b ++ (actionCloseTag ++ p3)))))
      = some (p1 ++ p2, p3) := by
    unfold removeFirst
    rw [sHO2]
    simp only [Option.some_bind]
    rw [sC2]
    rfl
  have rm4 : removeFirst themeOpenTag actionCloseTag p3 = none := by
    unfold removeFirst
    rw [splitOnce_eq_none themeOpenTag p3 hdHO h3]
    rfl
  have strip2 : stripTag themeOpenTag actionCloseTag
      (p1 ++ (p2 ++ (themeOpenTag ++ (b ++ (actionCloseTag ++ p3)))))
      = p1 ++ p2 ++ p3 := by
    rw [stripTag, dif_neg (by decide : ¬ themeOpenTag = []), rm3]
    show (p1 ++ p2) ++ stripTag themeOpenTag actionCloseTag p3 = p1 ++ p2 ++ p3
    rw [stripTag, dif_neg (by decide : ¬ themeOpenTag = []), rm4]
  have h123 : noTagChar (p1 ++ p2 ++ p3) := by
    intro c hc
    simp only [List.mem_append] at hc
    rcases hc with (hc | hc) | hc
    · exact h1 c hc
    · exact h2 c hc
    · exact h3 c hc
  have rm5 : removeFirst storyOpenTag actionCloseTag (p1 ++ p2 ++ p3) = none := by
    unfold removeFirst
    rw [splitOnce_eq_none storyOpenTag _ hdSO h123]
    rfl
  have strip3 : stripTag storyOpenTag actionCloseTag (p1 ++ p2 ++ p3) = p1 ++ p2 ++ p3 := by
    rw [stripTag, dif_neg (by decide : ¬ storyOpenTag = []), rm5]
  -- assemble the parsed message
  have etext : cleanText (p1 ++ tasksOpenTag ++ a ++ actionCloseTag ++ p2 ++
        themeOpenTag ++ b ++ actionCloseTag ++ p3) = jsTrim (p1 ++ p2 ++ p3) := by
    unfold cleanText
    rw [hr, strip1, strip2, strip3]
  have hae : a.isEmpty = false := by
    cases a with
    | nil => exact absurd rfl hane
    | cons c cs => rfl
  have etasks : suggestionSlot parse tasksOpenTag (p1 ++ tasksOpenTag ++ a ++
        actionCloseTag ++ p2 ++ themeOpenTag ++ b ++ actionCloseTag ++ p3) = some tasks := by
    unfold suggestionSlot
    rw [hr, capTO]
    simp [hae, hparse]
  have etheme : suggestionSlot parse themeOpenTag (p1 ++ tasksOpenTag ++ a ++
        actionCloseTag ++ p2 ++ themeOpenTag ++ b ++ actionCloseTag ++ p3) = none := by
    unfold suggestionSlot
    rw [hr, capHO]
    cases hbe : b.isEmpty <;> simp [hbe, hbad]
  have estory : suggestionSlot parse storyOpenTag (p1 ++ tasksOpenTag ++ a ++
        actionCloseTag ++ p2 ++ themeOpenTag ++ b ++ actionCloseTag ++ p3) = none := by
    unfold suggestionSlot
    rw [hr, capSO]
  unfold parseAiResponse
  rw [etext, etasks, etheme, estory]

/-- Witness for C1 on a concrete response: prose around a well-formed
`TASKS` block (`[1]`) and a malformed `THEME` block (`bad`), with
`JSON.parse` modelled as accepting exactly the strings that start with
`'['`. -/
theorem sendMessage_mixed_blocks_witness :
    parseAiResponse (fun s : Str => if s.head? = some '[' then some s else none)
        ("Here you go! ".data ++ tasksOpenTag ++ "[1]".data ++ actionCloseTag ++
          " mid ".data ++ themeOpenTag ++ "bad".data ++ actionCloseTag ++ " end".data)
      = { text := jsTrim ("Here you go! ".data ++ " mid ".data ++ " end".data)
          suggestedTasks := some "[1]".data
          suggestedTheme := none
          suggestedStory := none } :=
  sendMessage_mixed_blocks (fun s : Str => if s.head? = some '[' then some s else none)
    "Here you go! ".data " mid ".data " end".data "[1]".data "bad".data "[1]".data
    (by decide) (by decide) (by decide) (by decide) (by decide) (by decide)
    (by decide) (by decide)

end Planning
